import Mathlib

/-!
Shallow embedding of the rescuelink-backend incident lifecycle:
the alerts router (list/get/create/put/status/assign), the crash-event and
SOS creation routes, the combined-incident base query, and the socket
instance holder.  Statuses, roles and messages are the literal strings the
JavaScript compares; rows are Lean structures; the relational store is a
list of rows; each route handler is a pure function from (store, actor,
request) to (HTTP-level result, new store).  `.single()` on a query that
matches no row yields a PostgREST error, which every handler turns into a
500 response; this is modelled by the `serverError` result.
-/

namespace Rescuelink

/-- A JSON/JavaScript value as far as the routes inspect one: a number
(JS floats only ever compared here, so `Rat` is exact), a string,
`undefined` (field absent) or `null`.  `NaN` is outside the domain. -/
inductive JsVal where
  | num : Rat → JsVal
  | str : String → JsVal
  | undef : JsVal
  | null : JsVal
deriving Repr, DecidableEq

/-- JavaScript truthiness for the values above (`0`, `""`, `undefined`,
`null` are falsy). -/
def JsVal.truthy : JsVal → Bool
  | .num q => q != 0
  | .str s => s != ""
  | .undef => false
  | .null => false

/-- `typeof v === 'number' && lo <= v && v <= hi`. -/
def JsVal.numInRange (v : JsVal) (lo hi : Rat) : Bool :=
  match v with
  | .num q => decide (lo ≤ q ∧ q ≤ hi)
  | _ => false

/-- `v || null` on an optional numeric id (`0` is falsy). -/
def jsOrNull (v : Option Nat) : Option Nat :=
  match v with
  | some 0 => none
  | x => x

/-- Truthiness of an optional id (`undefined`/`null`/`0` are falsy). -/
def natTruthy : Option Nat → Bool
  | some n => n != 0
  | none => false

/-- Truthiness of an optional string (`undefined`/`null`/`""` are falsy). -/
def strTruthy : Option String → Bool
  | some s => s != ""
  | none => false

/-- `s?.trim() || null`: trim when present, empty result collapses to null. -/
def trimOrNull : Option String → Option String
  | some s => if s.trim = "" then none else some s.trim
  | none => none

/-- `v || null` on an optional string (`""` is falsy). -/
def strOrNull : Option String → Option String
  | some s => if s = "" then none else some s
  | none => none

/-- `v || null` on an optional number (`0` is falsy). -/
def ratOrNull : Option Rat → Option Rat
  | some q => if q = 0 then none else some q
  | none => none

/-- `rows.find(r => getId r === id)`: the row a `.eq('id', id).single()`
query returns, if any. -/
def findBy (getId : α → Nat) (id : Nat) : List α → Option α
  | [] => none
  | r :: rs => if getId r = id then some r else findBy getId id rs

/-- `.update(f).eq('id', id)`: rewrite every row matching `id`. -/
def updBy (getId : α → Nat) (id : Nat) (f : α → α) : List α → List α
  | [] => []
  | r :: rs => (if getId r = id then f r else r) :: updBy getId id f rs

theorem findBy_updBy_same (getId : α → Nat) (id : Nat) (f : α → α)
    (hf : ∀ r, getId (f r) = getId r) (rows : List α) :
    findBy getId id (updBy getId id f rows) = (findBy getId id rows).map f := by
  induction rows with
  | nil => rfl
  | cons r rs ih =>
    by_cases h : getId r = id
    · simp [findBy, updBy, h, hf r]
    · simp [findBy, updBy, h, ih]

theorem findBy_updBy_ne (getId : α → Nat) (id id' : Nat) (f : α → α)
    (hf : ∀ r, getId (f r) = getId r) (hne : id ≠ id') (rows : List α) :
    findBy getId id (updBy getId id' f rows) = findBy getId id rows := by
  induction rows with
  | nil => rfl
  | cons r rs ih =>
    by_cases h : getId r = id'
    · have h1 : getId (f r) ≠ id := by
        rw [hf r, h]; exact Ne.symm hne
      have h2 : getId r ≠ id := by rw [h]; exact Ne.symm hne
      simp [findBy, updBy, h, h1, h2, Ne.symm hne, ih]
    · by_cases h2 : getId r = id <;> simp [findBy, updBy, h, h2, hne, ih]

theorem updBy_updBy (getId : α → Nat) (id : Nat) (f g : α → α)
    (hf : ∀ r, getId (f r) = getId r) (rows : List α) :
    updBy getId id g (updBy getId id f rows) =
      updBy getId id (fun r => g (f r)) rows := by
  induction rows with
  | nil => rfl
  | cons r rs ih =>
    by_cases h : getId r = id <;> simp [updBy, h, hf r, ih]

/-! ## Rows and the store -/

/-- A row of the `alerts` table, with the fields the routes read or
write.  Timestamps are an abstract `Nat` clock. -/
structure Alert where
  id : Nat
  user_id : Nat
  alert_type : String
  severity : String
  title : String
  description : Option String
  location : String
  latitude : Option Rat
  longitude : Option Rat
  image_url : Option String
  status : String
  assigned_vehicle_id : Option Nat
  assigned_responder_id : Option Nat
  reported_at : Nat
  updated_at : Option Nat
deriving Repr, DecidableEq

/-- A row of the `vehicles` table (only `id` and `status` are touched by
the alert routes). -/
structure Vehicle where
  id : Nat
  status : String
deriving Repr, DecidableEq

/-- The slice of the persistent store the alert routes touch. -/
structure Store where
  alerts : List Alert
  vehicles : List Vehicle
deriving Repr, DecidableEq

/-- HTTP-level outcome of a handler, by status code class. -/
inductive HttpResult (α : Type) where
  | ok : α → HttpResult α
  | badRequest : String → HttpResult α
  | accessDenied : String → HttpResult α
  | notFound : String → HttpResult α
  | serverError : String → HttpResult α
deriving Repr, DecidableEq

/-- Message of the PostgREST error `.single()` raises when the query
matched no row; the handlers surface it as a 500. -/
def singleNoRows : String := "JSON object requested, multiple (or no) rows returned"

def findAlert (rows : List Alert) (id : Nat) : Option Alert :=
  findBy Alert.id id rows

def findVehicle (rows : List Vehicle) (id : Nat) : Option Vehicle :=
  findBy Vehicle.id id rows

/-- Status of vehicle `v` in the store, when the row exists. -/
def vehicleStatus (st : Store) (v : Nat) : Option String :=
  (findVehicle st.vehicles v).map Vehicle.status

/-- `supabase.from('vehicles').update({status}).eq('id', v)`. -/
def setVehicleStatus (rows : List Vehicle) (v : Nat) (s : String) : List Vehicle :=
  updBy Vehicle.id v (fun w => { w with status := s }) rows

/-! ## PATCH /alerts/:id/status -/

def validStatuses : List String := ["pending", "responding", "resolved", "cancelled"]

def statusRoles : List String := ["admin", "dispatcher", "rescuer"]

/-- `if (status === 'responding' && data.assigned_vehicle_id)` — the
first conditional vehicle write of the status route; the id is a JS
truthiness test, so 0/null/undefined all skip the write. -/
def respondEffect (vs : List Vehicle) (status : String) (avid : Option Nat) :
    List Vehicle :=
  if status = "responding" ∧ natTruthy avid = true then
    match avid with
    | some v => setVehicleStatus vs v "responding"
    | none => vs
  else vs

/-- `if (status === 'resolved' && data.assigned_vehicle_id)` — the second
conditional vehicle write of the status route. -/
def resolveEffect (vs : List Vehicle) (status : String) (avid : Option Nat) :
    List Vehicle :=
  if status = "resolved" ∧ natTruthy avid = true then
    match avid with
    | some v => setVehicleStatus vs v "available"
    | none => vs
  else vs

/-- The `PATCH /:id/status` handler of the alerts router: validate the
status string, gate on role, update the alert row (`.single()`), then
re-point the assigned vehicle for `responding`/`resolved`. -/
def updateStatus (st : Store) (role : String) (id : Nat) (status : String)
    (now : Nat) : HttpResult Alert × Store :=
  if !(validStatuses.contains status) then
    (.badRequest "Invalid status", st)
  else if !(statusRoles.contains role) then
    (.accessDenied "Access denied", st)
  else
    match findAlert st.alerts id with
    | none =>
      -- `.update(...).eq('id', id).select().single()` with no matching row:
      -- the error is thrown and caught, producing a 500 (there is no 404
      -- branch in this handler).
      (.serverError singleNoRows, st)
    | some a =>
      let f := fun (x : Alert) => { x with status := status, updated_at := some now }
      let data := f a
      -- the two conditional vehicle writes touch only the vehicles table
      (.ok data,
       { alerts := updBy Alert.id id f st.alerts,
         vehicles := resolveEffect
           (respondEffect st.vehicles status data.assigned_vehicle_id)
           status data.assigned_vehicle_id })

/-! ## PATCH /alerts/:id/assign -/

def assignRoles : List String := ["admin", "dispatcher"]

/-- The `PATCH /:id/assign` handler: gate on role, read the current
`assigned_vehicle_id`, overwrite both assignment pointers
(`vehicle_id || null`), then — in this order — free the previous vehicle
when it differs from the new one, and mark the new vehicle `assigned`.
The third component records the vehicle-status writes in the order the
handler issues them. -/
def assign (st : Store) (role : String) (id : Nat)
    (vehicle_id responder_id : Option Nat) (now : Nat) :
    HttpResult Alert × Store × List (Nat × String) :=
  if !(assignRoles.contains role) then
    (.accessDenied "Access denied", st, [])
  else
    match findAlert st.alerts id with
    | none =>
      -- `.select('assigned_vehicle_id').eq('id', id).single()` with no row:
      -- the error is thrown, producing a 500.
      (.serverError singleNoRows, st, [])
    | some currentAlert =>
      let f := fun (x : Alert) =>
        { x with assigned_vehicle_id := jsOrNull vehicle_id,
                 assigned_responder_id := jsOrNull responder_id,
                 updated_at := some now }
      let updatedAlert := f currentAlert
      -- (1) previous vehicle back to available, if it existed and was replaced
      let step1 : List Vehicle × List (Nat × String) :=
        match currentAlert.assigned_vehicle_id with
        | some pv =>
          if pv ≠ 0 ∧ vehicle_id ≠ some pv then
            (setVehicleStatus st.vehicles pv "available", [(pv, "available")])
          else (st.vehicles, [])
        | none => (st.vehicles, [])
      -- (2) new vehicle to assigned, if one was given
      let step2 : List Vehicle × List (Nat × String) :=
        if natTruthy vehicle_id then
          match vehicle_id with
          | some nv =>
            (setVehicleStatus step1.1 nv "assigned", step1.2 ++ [(nv, "assigned")])
          | none => step1
        else step1
      (.ok updatedAlert,
       { alerts := updBy Alert.id id f st.alerts, vehicles := step2.1 },
       step2.2)

/-! ## GET /alerts and GET /alerts/:id -/

/-- The `GET /` handler of the alerts router: filter by status and
alert_type when given; a `user` only ever gets rows with their own
`user_id`, while staff may filter by an arbitrary `user_id`.  (The
`reported_at` ordering only permutes the result and is dropped here.) -/
def alertsList (st : Store) (role : String) (uid : Nat)
    (statusF typeF : Option String) (userF : Option Nat) : List Alert :=
  let q := st.alerts
  let q := match statusF with
    | some s => q.filter (fun a => a.status == s)
    | none => q
  let q := match typeF with
    | some t => q.filter (fun a => a.alert_type == t)
    | none => q
  if role == "user" then
    q.filter (fun a => a.user_id == uid)
  else
    match userF with
    | some u => q.filter (fun a => a.user_id == u)
    | none => q

/-- The `GET /:id` handler: `.single()` lookup (500 when absent), then a
`user` is rejected with 403 unless the row is their own. -/
def alertGet (st : Store) (role : String) (uid : Nat) (id : Nat) :
    HttpResult Alert :=
  match findAlert st.alerts id with
  | none => .serverError singleNoRows
  | some a =>
    if role == "user" && a.user_id != uid then
      .accessDenied "Access denied"
    else
      .ok a

/-! ## PUT /alerts/:id -/

/-- Body of the privileged full update.  The handler spreads the whole
request body into the update, so every field present (including
`user_id`, `status` and the assignment pointers) is written; `none`
models an absent (`undefined`, hence deleted) field. -/
structure AlertPutBody where
  user_id : Option Nat := none
  alert_type : Option String := none
  severity : Option String := none
  title : Option String := none
  description : Option String := none
  location : Option String := none
  latitude : Option Rat := none
  longitude : Option Rat := none
  image_url : Option String := none
  status : Option String := none
  assigned_vehicle_id : Option Nat := none
  assigned_responder_id : Option Nat := none
deriving Repr, DecidableEq

/-- `{...req.body, updated_at: now}` applied to a row: every present body
field overwrites the column of the same name. -/
def applyPutBody (b : AlertPutBody) (now : Nat) (a : Alert) : Alert :=
  { a with
    user_id := b.user_id.getD a.user_id,
    alert_type := b.alert_type.getD a.alert_type,
    severity := b.severity.getD a.severity,
    title := b.title.getD a.title,
    description := match b.description with
      | some d => some d
      | none => a.description,
    location := b.location.getD a.location,
    latitude := match b.latitude with
      | some q => some q
      | none => a.latitude,
    longitude := match b.longitude with
      | some q => some q
      | none => a.longitude,
    image_url := match b.image_url with
      | some u => some u
      | none => a.image_url,
    status := b.status.getD a.status,
    assigned_vehicle_id := match b.assigned_vehicle_id with
      | some v => some v
      | none => a.assigned_vehicle_id,
    assigned_responder_id := match b.assigned_responder_id with
      | some r => some r
      | none => a.assigned_responder_id,
    updated_at := some now }

/-- The `PUT /:id` handler: admin/dispatcher only; spreads the body over
the row (`.single()`, so a missing id is a thrown error → 500). -/
def alertPut (st : Store) (role : String) (id : Nat) (b : AlertPutBody)
    (now : Nat) : HttpResult Alert × Store :=
  if !(assignRoles.contains role) then
    (.accessDenied "Access denied", st)
  else
    match findAlert st.alerts id with
    | none => (.serverError singleNoRows, st)
    | some a =>
      let data := applyPutBody b now a
      (.ok data, { st with alerts := updBy Alert.id id (applyPutBody b now) st.alerts })

/-! ## POST /alerts -/

def validAlertTypes : List String :=
  ["medical", "fire", "accident", "crime", "natural_disaster", "other"]

def validSeverities : List String := ["low", "medium", "high", "critical"]

/-- Body of `POST /alerts`.  The handler destructures only the named
fields; a `status` supplied by the client is present in the body but
never read. -/
structure AlertBody where
  alert_type : Option String := none
  severity : Option String := none
  title : Option String := none
  description : Option String := none
  location : Option String := none
  latitude : Option Rat := none
  longitude : Option Rat := none
  image_url : Option String := none
  status : Option String := none
deriving Repr, DecidableEq

/-- The `POST /` handler of the alerts router: require the four truthy
fields, check the two enums, then insert a row with `status: 'pending'`
and no assignment columns (the store's defaults, `null`, apply). -/
def createAlert (st : Store) (uid : Nat) (b : AlertBody) (newId now : Nat) :
    HttpResult Alert × Store :=
  if !(strTruthy b.alert_type) || !(strTruthy b.severity) ||
     !(strTruthy b.title) || !(strTruthy b.location) then
    (.badRequest "Missing required fields", st)
  else if !(validAlertTypes.contains (b.alert_type.getD "")) then
    (.badRequest "Invalid alert type", st)
  else if !(validSeverities.contains (b.severity.getD "")) then
    (.badRequest "Invalid severity level", st)
  else
      let row : Alert :=
        { id := newId,
          user_id := uid,
          alert_type := b.alert_type.getD "",
          severity := b.severity.getD "",
          title := (b.title.getD "").trim,
          description := trimOrNull b.description,
          location := (b.location.getD "").trim,
          latitude := ratOrNull b.latitude,
          longitude := ratOrNull b.longitude,
          image_url := strOrNull b.image_url,
          status := "pending",
          assigned_vehicle_id := none,
          assigned_responder_id := none,
          reported_at := now,
          updated_at := none }
      (.ok row, { st with alerts := st.alerts ++ [row] })

/-! ## Crash events: POST /crash and PUT /crash/:id -/

/-- A row of the `crash_events` table.  The assignment pointers are store
columns the creation route never supplies, so they carry the default. -/
structure CrashEvent where
  id : Nat
  user_id : Nat
  event_type : String
  latitude : JsVal
  longitude : JsVal
  impact_force : Option Rat
  device_battery : Option Rat
  network_type : Option String
  status : String
  assigned_vehicle_id : Option Nat
  assigned_responder_id : Option Nat
  triggered_at : Nat
deriving Repr, DecidableEq

/-- Body of `POST /crash`; only the destructured fields are read, a
client-supplied `status` is ignored. -/
structure CrashBody where
  latitude : JsVal := .undef
  longitude : JsVal := .undef
  impact_force : Option Rat := none
  device_battery : Option Rat := none
  network_type : Option String := none
  status : Option String := none
deriving Repr, DecidableEq

/-- The `POST /` handler of the crash router: `if (!latitude || !longitude)`
— a falsy coordinate (including the number 0) is rejected with 400 —
then insert with `status: 'pending'`. -/
def crashCreate (rows : List CrashEvent) (uid : Nat) (b : CrashBody)
    (newId now : Nat) : HttpResult CrashEvent × List CrashEvent :=
  if !b.latitude.truthy || !b.longitude.truthy then
    (.badRequest "Latitude and longitude are required", rows)
  else
    let row : CrashEvent :=
      { id := newId,
        user_id := uid,
        event_type := "AUTO_CRASH",
        latitude := b.latitude,
        longitude := b.longitude,
        impact_force := ratOrNull b.impact_force,
        device_battery := ratOrNull b.device_battery,
        network_type := strOrNull b.network_type,
        status := "pending",
        assigned_vehicle_id := none,
        assigned_responder_id := none,
        triggered_at := now }
    (.ok row, rows ++ [row])

/-- Body of `PUT /crash/:id`.  The handler deletes `id`, `user_id`,
`event_type`, `created_at`, `updated_at` and `triggered_at` from the
update before applying it, so those fields are carried but never
written. -/
structure CrashPutBody where
  id : Option Nat := none
  user_id : Option Nat := none
  event_type : Option String := none
  triggered_at : Option Nat := none
  latitude : Option JsVal := none
  longitude : Option JsVal := none
  impact_force : Option Rat := none
  device_battery : Option Rat := none
  network_type : Option String := none
  status : Option String := none
  assigned_vehicle_id : Option Nat := none
  assigned_responder_id : Option Nat := none
deriving Repr, DecidableEq

/-- The update object after the `delete updates.*` lines: only the
mutable columns are applied. -/
def applyCrashPutBody (b : CrashPutBody) (c : CrashEvent) : CrashEvent :=
  { c with
    latitude := b.latitude.getD c.latitude,
    longitude := b.longitude.getD c.longitude,
    impact_force := match b.impact_force with
      | some q => some q
      | none => c.impact_force,
    device_battery := match b.device_battery with
      | some q => some q
      | none => c.device_battery,
    network_type := match b.network_type with
      | some s => some s
      | none => c.network_type,
    status := b.status.getD c.status,
    assigned_vehicle_id := match b.assigned_vehicle_id with
      | some v => some v
      | none => c.assigned_vehicle_id,
    assigned_responder_id := match b.assigned_responder_id with
      | some r => some r
      | none => c.assigned_responder_id }

/-- The `PUT /:id` handler of the crash router: fetch (404 when absent),
ownership check for role `user`, strip immutable fields, update. -/
def crashPut (rows : List CrashEvent) (role : String) (uid : Nat) (id : Nat)
    (b : CrashPutBody) : HttpResult CrashEvent × List CrashEvent :=
  match findBy CrashEvent.id id rows with
  | none => (.notFound "Crash event not found", rows)
  | some existing =>
    if role == "user" && existing.user_id != uid then
      (.accessDenied "You do not have permission to update this event", rows)
    else
      let data := applyCrashPutBody b existing
      (.ok data, updBy CrashEvent.id id (applyCrashPutBody b) rows)

/-! ## POST /sos -/

/-- A row of the `sos_requests` table. -/
structure SosRequest where
  id : Nat
  user_id : Nat
  type : String
  description : Option String
  latitude : Rat
  longitude : Rat
  status : String
  assigned_vehicle_id : Option Nat
  assigned_responder_id : Option Nat
  triggered_at : Nat
deriving Repr, DecidableEq

/-- Body of `POST /sos`; `type` is a string field (truthiness rejects
`""` and absence), the coordinates are arbitrary JSON values, and a
client-supplied `status` is ignored. -/
structure SosBody where
  type : Option String := none
  description : Option String := none
  latitude : JsVal := .undef
  longitude : JsVal := .undef
  status : Option String := none
deriving Repr, DecidableEq

/-- The `POST /` handler of the SOS router: missing-field check
(`latitude === undefined`, so the number 0 passes), then a typeof/range
check admitting exactly numbers in [-90,90] × [-180,180], then insert
with `status: 'pending'`. -/
def sosCreate (rows : List SosRequest) (uid : Nat) (b : SosBody)
    (newId now : Nat) : HttpResult SosRequest × List SosRequest :=
  if !(strTruthy b.type) || b.latitude = JsVal.undef || b.longitude = JsVal.undef then
    (.badRequest "Missing required fields (type, latitude, longitude)", rows)
  else if !(b.latitude.numInRange (-90) 90) || !(b.longitude.numInRange (-180) 180) then
    (.badRequest "Invalid latitude or longitude values", rows)
  else
    match b.latitude, b.longitude with
    | .num la, .num lo =>
      let row : SosRequest :=
        { id := newId,
          user_id := uid,
          type := b.type.getD "",
          description := trimOrNull b.description,
          latitude := la,
          longitude := lo,
          status := "pending",
          assigned_vehicle_id := none,
          assigned_responder_id := none,
          triggered_at := now }
      (.ok row, rows ++ [row])
    | _, _ =>
      -- unreachable: `numInRange` already forced both to be numbers
      (.badRequest "Invalid latitude or longitude values", rows)

/-! ## The combined-incident base query (allAlerts router) -/

/-- `buildBaseQuery` of the combined-incident route, generic over the
table: status and timestamp-window filters, and for role `user` the
`eq('user_id', userId)` restriction. -/
def buildBaseQuery (getStatus : α → String) (getUser : α → Nat)
    (getTs : α → Nat) (statusF : Option String) (fromF toF : Option Nat)
    (userRole : String) (userId : Nat) (rows : List α) : List α :=
  let q := rows
  let q := match statusF with
    | some s => q.filter (fun r => getStatus r == s)
    | none => q
  let q := match fromF with
    | some f => q.filter (fun r => f ≤ getTs r)
    | none => q
  let q := match toF with
    | some t => q.filter (fun r => getTs r ≤ t)
    | none => q
  if userRole == "user" then q.filter (fun r => getUser r == userId) else q

/-! ## socketInstance.js -/

/-- `getIO`: throw `'Socket.io not initialized'` while the module-level
`io` is unset (falsy), otherwise return it. -/
def getIO (io : Option α) : Except String α :=
  match io with
  | none => .error "Socket.io not initialized"
  | some x => .ok x

/-- `setIO` overwrites the module-level reference with its argument. -/
def setIO (_io : Option α) ( newIO : Option α) : Option α := newIO

/-! ## Sample rows used by concrete instances -/

/-- A concrete alert row with the given id, owner, status and assigned
vehicle; all other columns fixed. -/
def mkAlert (id uid : Nat) (status : String) (avid : Option Nat) : Alert :=
  { id := id,
    user_id := uid,
    alert_type := "medical",
    severity := "high",
    title := "t",
    description := none,
    location := "loc",
    latitude := none,
    longitude := none,
    image_url := none,
    status := status,
    assigned_vehicle_id := avid,
    assigned_responder_id := none,
    reported_at := 0,
    updated_at := none }

/-! ## Claims -/

/-- C9: `getIO` before any `setIO` throws `Socket.io not initialized`;
after `setIO` with a non-null handle, `getIO` returns exactly that handle,
so the error branch is unreachable and every post-initialization broadcast
obtains the handle. -/
theorem C9_socket_initialization (α : Type) :
    getIO (α := α) none = Except.error "Socket.io not initialized" ∧
    ∀ (old : Option α) (x : α), getIO ( setIO old (some x)) = Except.ok x :=
  ⟨rfl, fun _ _ => rfl⟩

/-- C1 (failing input): the status handler has no transition table.  On a
store whose only alert is in the terminal state `resolved`, an admin PATCH
to `pending` succeeds with 200 and overwrites the status — there is no
InvalidTransition outcome anywhere in the handler. -/
theorem C1_terminal_state_left :
    (updateStatus { alerts := [mkAlert 1 1 "resolved" none], vehicles := [] }
        "admin" 1 "pending" 5) =
      (.ok { mkAlert 1 1 "pending" none with updated_at := some 5 },
       { alerts := [{ mkAlert 1 1 "pending" none with updated_at := some 5 }],
         vehicles := [] }) := by
  decide

/-- C7 (counterexample): with an empty store, a permitted-role PATCH of a
valid status to an absent id is answered with the 500 `serverError`
carrying the `.single()` error, not with a 404 `notFound` — the handler
has no not-found branch. -/
theorem C7_counterexample :
    (updateStatus { alerts := [], vehicles := [] } "admin" 1 "responding" 0).1 =
        HttpResult.serverError singleNoRows ∧
    (updateStatus { alerts := [], vehicles := [] } "admin" 1 "responding" 0).1 ≠
        HttpResult.notFound "Alert not found" := by
  decide

/-- C7 (amended): for every store state, permitted role and valid status,
updating the status of an id absent from the store returns the 500
`serverError` raised by the `.update(...).single()` call and leaves the
store unchanged; no 404 is produced. -/
theorem C7_amended_absent_id_is_500 (st : Store) (role : String) (id : Nat)
    (s : String) (now : Nat)
    (hrole : statusRoles.contains role = true)
    (hs : validStatuses.contains s = true)
    (habs : findAlert st.alerts id = none) :
    updateStatus st role id s now = (.serverError singleNoRows, st) := by
  have hs' : s ∈ validStatuses := by simpa using hs
  have hrole' : role ∈ statusRoles := by simpa using hrole
  simp [updateStatus, hs', hrole', habs]

theorem C7_amended_witness :
    updateStatus { alerts := [], vehicles := [] } "admin" 1 "responding" 0 =
      (.serverError singleNoRows, { alerts := [], vehicles := [] }) :=
  C7_amended_absent_id_is_500 { alerts := [], vehicles := [] } "admin" 1
    "responding" 0 (by decide) (by decide) (by decide)

/-- C4: each of the three creation routes (manual alert, crash event,
SOS) persists a row with `status = 'pending'` and null assignment fields,
for every request body — including bodies supplying a `status` field,
which the handlers never destructure. -/
theorem C4_create_always_pending :
    (∀ (st : Store) (uid : Nat) (b : AlertBody) (newId now : Nat)
        (r : Alert) (st' : Store),
      createAlert st uid b newId now = (.ok r, st') →
        r.status = "pending" ∧ r.assigned_vehicle_id = none ∧
          r.assigned_responder_id = none) ∧
    (∀ (rows : List CrashEvent) (uid : Nat) (b : CrashBody) (newId now : Nat)
        (r : CrashEvent) (rows' : List CrashEvent),
      crashCreate rows uid b newId now = (.ok r, rows') →
        r.status = "pending" ∧ r.assigned_vehicle_id = none ∧
          r.assigned_responder_id = none) ∧
    (∀ (rows : List SosRequest) (uid : Nat) (b : SosBody) (newId now : Nat)
        (r : SosRequest) (rows' : List SosRequest),
      sosCreate rows uid b newId now = (.ok r, rows') →
        r.status = "pending" ∧ r.assigned_vehicle_id = none ∧
          r.assigned_responder_id = none) := by
  refine ⟨?_, ?_, ?_⟩
  · intro st uid b newId now r st' h
    rw [createAlert] at h
    split at h
    · simp at h
    · split at h
      · simp at h
      · split at h
        · simp at h
        · simp only [Prod.mk.injEq, HttpResult.ok.injEq] at h
          obtain ⟨hr, -⟩ := h
          subst hr
          exact ⟨rfl, rfl, rfl⟩
  · intro rows uid b newId now r rows' h
    rw [crashCreate] at h
    split at h
    · simp at h
    · simp only [Prod.mk.injEq, HttpResult.ok.injEq] at h
      obtain ⟨hr, -⟩ := h
      subst hr
      exact ⟨rfl, rfl, rfl⟩
  · intro rows uid b newId now r rows' h
    rw [sosCreate] at h
    split at h
    · simp at h
    · split at h
      · simp at h
      · split at h
        · simp only [Prod.mk.injEq, HttpResult.ok.injEq] at h
          obtain ⟨hr, -⟩ := h
          subst hr
          exact ⟨rfl, rfl, rfl⟩
        · simp at h

/-- The row `POST /alerts` persists for the C4 witness body. -/
def c4row : Alert :=
  { mkAlert 5 2 "pending" none with
      title := "t".trim, location := "loc".trim, reported_at := 9 }

theorem C4_witness :
    c4row.status = "pending" ∧ c4row.assigned_vehicle_id = none ∧
      c4row.assigned_responder_id = none :=
  C4_create_always_pending.1 { alerts := [], vehicles := [] } 2
    { alert_type := some "medical", severity := some "high",
      title := some "t", location := some "loc",
      status := some "resolved" } 5 9
    c4row { alerts := [c4row], vehicles := [] } rfl

/-- C10: crash creation rejects any falsy latitude or longitude —
including the number 0 — with 400 `Latitude and longitude are required`,
while SOS creation accepts latitude 0 / longitude 0 and rejects exactly
the bodies whose coordinates are undefined, non-numbers, or outside
[-90,90] × [-180,180]. -/
theorem C10_zero_coordinate_validation :
    (JsVal.num 0).truthy = false ∧
    (∀ (rows : List CrashEvent) (uid : Nat) (b : CrashBody) (newId now : Nat),
      b.latitude.truthy = false ∨ b.longitude.truthy = false →
        crashCreate rows uid b newId now =
          (.badRequest "Latitude and longitude are required", rows)) ∧
    (∀ (rows : List SosRequest) (uid : Nat) (b : SosBody) (newId now : Nat),
      strTruthy b.type = true → b.latitude = .num 0 → b.longitude = .num 0 →
        ∃ (r : SosRequest) (rows' : List SosRequest),
          sosCreate rows uid b newId now = (.ok r, rows') ∧
            r.latitude = 0 ∧ r.longitude = 0 ∧ r.status = "pending") ∧
    (∀ (rows : List SosRequest) (uid : Nat) (b : SosBody) (newId now : Nat),
      b.latitude = .undef ∨ b.longitude = .undef →
        sosCreate rows uid b newId now =
          (.badRequest "Missing required fields (type, latitude, longitude)",
           rows)) ∧
    (∀ (rows : List SosRequest) (uid : Nat) (b : SosBody) (newId now : Nat),
      strTruthy b.type = true → b.latitude ≠ .undef → b.longitude ≠ .undef →
      (b.latitude.numInRange (-90) 90 = false ∨
       b.longitude.numInRange (-180) 180 = false) →
        sosCreate rows uid b newId now =
          (.badRequest "Invalid latitude or longitude values", rows)) := by
  refine ⟨rfl, ?_, ?_, ?_, ?_⟩
  · intro rows uid b newId now h
    rcases h with h | h <;> simp [crashCreate, h]
  · intro rows uid b newId now ht hla hlo
    rw [sosCreate, hla, hlo, if_neg, if_neg]
    · exact ⟨_, _, rfl, rfl, rfl, rfl⟩
    · decide
    · simp [ht]
  · intro rows uid b newId now h
    rw [sosCreate, if_pos]
    rcases h with h | h <;> simp [h]
  · intro rows uid b newId now ht hla hlo h
    rw [sosCreate, if_neg, if_pos]
    · rcases h with h | h <;> simp [h]
    · simp only [ht, Bool.not_true, Bool.false_or, Bool.or_eq_true,
        decide_eq_true_eq]
      rintro (hm | hm)
      · exact hla hm
      · exact hlo hm

theorem C10_witness :
    crashCreate [] 2 { latitude := JsVal.num 0, longitude := JsVal.num 120 } 1 0 =
      (.badRequest "Latitude and longitude are required", []) ∧
    (∃ (r : SosRequest) (rows' : List SosRequest),
      sosCreate [] 2 { type := some "medical", latitude := JsVal.num 0,
                       longitude := JsVal.num 0 } 1 0 = (.ok r, rows') ∧
        r.latitude = 0 ∧ r.longitude = 0 ∧ r.status = "pending") ∧
    sosCreate [] 2 { type := some "medical", latitude := JsVal.num 91,
                     longitude := JsVal.num 0 } 1 0 =
      (.badRequest "Invalid latitude or longitude values", []) :=
  ⟨C10_zero_coordinate_validation.2.1 [] 2 _ 1 0 (Or.inl (by decide)),
   C10_zero_coordinate_validation.2.2.1 [] 2 _ 1 0 (by decide) rfl rfl,
   C10_zero_coordinate_validation.2.2.2.2 [] 2 _ 1 0 (by decide) (by decide)
     (by decide) (Or.inl (by decide))⟩

/-- C6: a caller with role `user` only ever sees their own incidents:
every row the list endpoint returns carries their own `user_id`; the
single-get returns a row only when it is the caller's own and answers 403
`Access denied` on any other user's alert; the combined-incident base
query restricts role `user` the same way. -/
theorem C6_user_sees_only_own :
    (∀ (st : Store) (uid : Nat) (statusF typeF : Option String)
        (userF : Option Nat) (a : Alert),
      a ∈ alertsList st "user" uid statusF typeF userF → a.user_id = uid) ∧
    (∀ (st : Store) (uid id : Nat) (a : Alert),
      alertGet st "user" uid id = .ok a → a.user_id = uid) ∧
    (∀ (st : Store) (uid id : Nat) (a : Alert),
      findAlert st.alerts id = some a → a.user_id ≠ uid →
        alertGet st "user" uid id = .accessDenied "Access denied") ∧
    (∀ (α : Type) (getStatus : α → String) (getUser : α → Nat)
        (getTs : α → Nat) (statusF : Option String) (fromF toF : Option Nat)
        (uid : Nat) (rows : List α) (r : α),
      r ∈ buildBaseQuery getStatus getUser getTs statusF fromF toF
            "user" uid rows →
        getUser r = uid) := by
  refine ⟨?_, ?_, ?_, ?_⟩
  · intro st uid sF tF uF a ha
    simp only [alertsList, beq_self_eq_true, if_true, List.mem_filter,
      beq_iff_eq] at ha
    exact ha.2
  · intro st uid id a h
    cases hf : findAlert st.alerts id with
    | none => simp [alertGet, hf] at h
    | some b =>
      simp only [alertGet, hf] at h
      by_cases hc : (("user" == "user") && b.user_id != uid) = true
      · rw [if_pos hc] at h
        exact absurd h (by simp)
      · rw [if_neg hc] at h
        simp only [HttpResult.ok.injEq] at h
        subst h
        simpa using hc
  · intro st uid id a hf hne
    have hb : (a.user_id != uid) = true := by simpa using hne
    simp only [alertGet, hf, beq_self_eq_true, Bool.true_and, hb, if_true]
  · intro α getStatus getUser getTs sF fF tF uid rows r hr
    simp only [buildBaseQuery, beq_self_eq_true, if_true, List.mem_filter,
      beq_iff_eq] at hr
    exact hr.2

/-- Store with alerts of two different owners, for the C6 witness. -/
def c6store : Store :=
  { alerts := [mkAlert 1 2 "pending" none, mkAlert 3 4 "pending" none],
    vehicles := [] }

theorem C6_witness :
    (mkAlert 1 2 "pending" none).user_id = 2 ∧
    alertGet c6store "user" 2 3 = .accessDenied "Access denied" :=
  ⟨C6_user_sees_only_own.1 c6store 2 none none none
      (mkAlert 1 2 "pending" none) (by decide),
   C6_user_sees_only_own.2.2.1 c6store 2 3 (mkAlert 3 4 "pending" none)
      (by decide) (by decide)⟩

/-- Lookup after an id-preserving bulk update: the found row is the
updated one. -/
theorem findAlert_updBy (rows : List Alert) (id : Nat) (f : Alert → Alert)
    (hid : ∀ x, (f x).id = x.id) (a : Alert)
    (hf : findAlert rows id = some a) :
    findAlert (updBy Alert.id id f rows) id = some (f a) := by
  rw [findAlert] at *
  rw [findBy_updBy_same _ _ _ hid, hf]
  rfl

/-- C5 (counterexample): the alerts `PUT /:id` spreads the whole request
body into the update, so a body carrying `user_id: 99` reassigns the
alert owned by user 1 to user 99 — `reporter_id` is not immutable. -/
theorem C5_counterexample :
    alertPut { alerts := [mkAlert 1 1 "pending" none], vehicles := [] }
        "admin" 1 { user_id := some 99 } 3 =
      (.ok { mkAlert 1 99 "pending" none with updated_at := some 3 },
       { alerts := [{ mkAlert 1 99 "pending" none with updated_at := some 3 }],
         vehicles := [] }) ∧
    (mkAlert 1 1 "pending" none).user_id ≠ 99 := by
  decide

/-- C5 (amended): `reporter_id` (`user_id`) is unchanged by the status
route, the assign route, the crash `PUT` (which strips `user_id` from the
update), and by every alerts `PUT` whose body does not supply `user_id`;
the alerts `PUT` copies every body field into the row, so only a body
carrying `user_id` can change the owner. -/
theorem C5_amended_owner_preserved :
    (∀ (st : Store) (role : String) (id : Nat) (s : String) (now : Nat)
        (a : Alert),
      findAlert st.alerts id = some a →
        ∃ a', findAlert ((updateStatus st role id s now).2).alerts id = some a' ∧
          a'.user_id = a.user_id) ∧
    (∀ (st : Store) (role : String) (id : Nat) (vid rid : Option Nat)
        (now : Nat) (a : Alert),
      findAlert st.alerts id = some a →
        ∃ a', findAlert ((assign st role id vid rid now).2.1).alerts id = some a' ∧
          a'.user_id = a.user_id) ∧
    (∀ (st : Store) (role : String) (id : Nat) (b : AlertPutBody) (now : Nat)
        (a : Alert),
      b.user_id = none →
      findAlert st.alerts id = some a →
        ∃ a', findAlert ((alertPut st role id b now).2).alerts id = some a' ∧
          a'.user_id = a.user_id) ∧
    (∀ (rows : List CrashEvent) (role : String) (uid id : Nat)
        (b : CrashPutBody) (c : CrashEvent),
      findBy CrashEvent.id id rows = some c →
        ∃ c', findBy CrashEvent.id id ((crashPut rows role uid id b).2) = some c' ∧
          c'.user_id = c.user_id) := by
  refine ⟨?_, ?_, ?_, ?_⟩
  · intro st role id s now a hf
    rw [updateStatus]
    split
    · exact ⟨a, hf, rfl⟩
    split
    · exact ⟨a, hf, rfl⟩
    rw [hf]
    dsimp only
    exact ⟨_, findAlert_updBy st.alerts id
      (fun x => { x with status := s, updated_at := some now })
      (fun _ => rfl) a hf, rfl⟩
  · intro st role id vid rid now a hf
    rw [assign]
    split
    · exact ⟨a, hf, rfl⟩
    rw [hf]
    dsimp only
    exact ⟨_, findAlert_updBy st.alerts id
      (fun x => { x with assigned_vehicle_id := jsOrNull vid,
                         assigned_responder_id := jsOrNull rid,
                         updated_at := some now })
      (fun _ => rfl) a hf, rfl⟩
  · intro st role id b now a hnone hf
    rw [alertPut]
    split
    · exact ⟨a, hf, rfl⟩
    rw [hf]
    dsimp only
    refine ⟨_, findAlert_updBy st.alerts id (applyPutBody b now)
      (fun _ => rfl) a hf, ?_⟩
    simp [applyPutBody, hnone]
  · intro rows role uid id b c hf
    rw [crashPut, hf]
    dsimp only
    split
    · exact ⟨c, hf, rfl⟩
    refine ⟨applyCrashPutBody b c, ?_, rfl⟩
    show findBy CrashEvent.id id
      (updBy CrashEvent.id id (applyCrashPutBody b) rows) = _
    rw [findBy_updBy_same CrashEvent.id id (applyCrashPutBody b)
      (fun _ => rfl), hf]
    rfl

theorem C5_amended_witness :
    (∃ a', findAlert
        ((updateStatus { alerts := [mkAlert 1 2 "pending" none], vehicles := [] }
            "admin" 1 "responding" 4).2).alerts 1 = some a' ∧
      a'.user_id = (mkAlert 1 2 "pending" none).user_id) ∧
    (∃ a', findAlert
        ((alertPut { alerts := [mkAlert 1 2 "pending" none], vehicles := [] }
            "admin" 1 { status := some "resolved" } 4).2).alerts 1 = some a' ∧
      a'.user_id = (mkAlert 1 2 "pending" none).user_id) :=
  ⟨C5_amended_owner_preserved.1
      { alerts := [mkAlert 1 2 "pending" none], vehicles := [] }
      "admin" 1 "responding" 4 (mkAlert 1 2 "pending" none) (by decide),
   C5_amended_owner_preserved.2.2.1
      { alerts := [mkAlert 1 2 "pending" none], vehicles := [] }
      "admin" 1 { status := some "resolved" } 4 (mkAlert 1 2 "pending" none)
      rfl (by decide)⟩

/-- Writing a status to vehicle `v` makes a later lookup of `v` see that
status, provided the row exists. -/
theorem vehicleStatus_set (vs : List Vehicle) (v : Nat) (s : String)
    (w : Vehicle) (hw : findVehicle vs v = some w) :
    (findVehicle (setVehicleStatus vs v s) v).map Vehicle.status = some s := by
  rw [findVehicle, setVehicleStatus,
    findBy_updBy_same Vehicle.id v (fun w => { w with status := s })
      (fun _ => rfl)]
  rw [findVehicle] at hw
  rw [hw]
  rfl

/-- C2: a successful status update to `responding` on an incident holding
vehicle `v` (a truthy reference: non-null, hence nonzero id) leaves `v`
with status `responding`; to `resolved`, with status `available`; and
when no vehicle is assigned, the vehicles table is untouched by any
status update. -/
theorem C2_status_vehicle_coupling :
    (∀ (st : Store) (role : String) (id : Nat) (a : Alert) (v : Nat)
        (w : Vehicle) (now : Nat),
      statusRoles.contains role = true →
      findAlert st.alerts id = some a →
      a.assigned_vehicle_id = some v →
      v ≠ 0 →
      findVehicle st.vehicles v = some w →
        vehicleStatus (updateStatus st role id "responding" now).2 v =
          some "responding" ∧
        vehicleStatus (updateStatus st role id "resolved" now).2 v =
          some "available") ∧
    (∀ (st : Store) (role : String) (id : Nat) (a : Alert) (s : String)
        (now : Nat),
      findAlert st.alerts id = some a →
      a.assigned_vehicle_id = none →
        ((updateStatus st role id s now).2).vehicles = st.vehicles) := by
  constructor
  · intro st role id a v w now hrole hf hv hv0 hw
    have hrole' : role ∈ statusRoles := by simpa using hrole
    have htr : natTruthy (some v) = true := by simp [natTruthy, hv0]
    constructor
    · rw [updateStatus, if_neg (by decide), if_neg (by simp [hrole']), hf]
      dsimp only
      rw [hv]
      rw [vehicleStatus]
      dsimp only
      rw [respondEffect, if_pos ⟨rfl, htr⟩]
      rw [resolveEffect, if_neg (by simp)]
      exact vehicleStatus_set st.vehicles v "responding" w hw
    · rw [updateStatus, if_neg (by decide), if_neg (by simp [hrole']), hf]
      dsimp only
      rw [hv]
      rw [vehicleStatus]
      dsimp only
      rw [respondEffect, if_neg (by simp)]
      rw [resolveEffect, if_pos ⟨rfl, htr⟩]
      exact vehicleStatus_set st.vehicles v "available" w hw
  · intro st role id a s now hf hv
    rw [updateStatus]
    split
    · rfl
    split
    · rfl
    rw [hf]
    dsimp only
    rw [hv]
    simp [respondEffect, resolveEffect, natTruthy]

/-- Store for the C2 witness: one pending alert holding vehicle 7. -/
def c2store : Store :=
  { alerts := [mkAlert 1 2 "pending" (some 7)],
    vehicles := [{ id := 7, status := "assigned" }] }

theorem C2_witness :
    vehicleStatus (updateStatus c2store "admin" 1 "responding" 3).2 7 =
      some "responding" ∧
    vehicleStatus (updateStatus c2store "admin" 1 "resolved" 3).2 7 =
      some "available" :=
  C2_status_vehicle_coupling.1 c2store "admin" 1
    (mkAlert 1 2 "pending" (some 7)) 7 { id := 7, status := "assigned" } 3
    (by decide) (by decide) rfl (by decide) (by decide)

/-- C3: assigning vehicle `v2` to an incident that previously held
`v1 ≠ v2` sets `v1` to `available` and `v2` to `assigned`, the handler
issuing the `v1` write strictly before the `v2` write (the write trace
is exactly `[(v1, available), (v2, assigned)]`); when the previous
vehicle equals the new one, no `available` write is issued for it. -/
theorem C3_assign_vehicle_coupling :
    (∀ (st : Store) (role : String) (id : Nat) (cur : Alert) (v1 v2 : Nat)
        (rid : Option Nat) (now : Nat) (w1 w2 : Vehicle),
      assignRoles.contains role = true →
      findAlert st.alerts id = some cur →
      cur.assigned_vehicle_id = some v1 →
      v1 ≠ 0 → v2 ≠ 0 → v2 ≠ v1 →
      findVehicle st.vehicles v1 = some w1 →
      findVehicle st.vehicles v2 = some w2 →
        vehicleStatus (assign st role id (some v2) rid now).2.1 v1 =
          some "available" ∧
        vehicleStatus (assign st role id (some v2) rid now).2.1 v2 =
          some "assigned" ∧
        (assign st role id (some v2) rid now).2.2 =
          [(v1, "available"), (v2, "assigned")]) ∧
    (∀ (st : Store) (role : String) (id : Nat) (cur : Alert) (v1 : Nat)
        (rid : Option Nat) (now : Nat),
      assignRoles.contains role = true →
      findAlert st.alerts id = some cur →
      cur.assigned_vehicle_id = some v1 →
        (v1, "available") ∉ (assign st role id (some v1) rid now).2.2) := by
  constructor
  · intro st role id cur v1 v2 rid now w1 w2 hrole hf hv1 hnz1 hnz2 hne hw1 hw2
    have hrole' : role ∈ assignRoles := by simpa using hrole
    have hsome : (some v2 : Option Nat) ≠ some v1 := by
      intro h
      exact hne (Option.some.inj h)
    have htr : natTruthy (some v2) = true := by simp [natTruthy, hnz2]
    rw [assign, if_neg (by simp [hrole']), hf]
    dsimp only
    rw [hv1]
    dsimp only
    rw [if_pos (show v1 ≠ 0 ∧ (some v2 : Option Nat) ≠ some v1 from
      ⟨hnz1, hsome⟩)]
    rw [if_pos htr]
    dsimp only
    refine ⟨?_, ?_, rfl⟩
    · rw [vehicleStatus]
      dsimp only
      rw [findVehicle, setVehicleStatus, setVehicleStatus,
        findBy_updBy_ne Vehicle.id v1 v2
          (fun w => { w with status := "assigned" }) (fun _ => rfl) hne.symm,
        findBy_updBy_same Vehicle.id v1
          (fun w => { w with status := "available" }) (fun _ => rfl)]
      rw [findVehicle] at hw1
      rw [hw1]
      rfl
    · rw [vehicleStatus]
      dsimp only
      rw [findVehicle, setVehicleStatus, setVehicleStatus,
        findBy_updBy_same Vehicle.id v2
          (fun w => { w with status := "assigned" }) (fun _ => rfl),
        findBy_updBy_ne Vehicle.id v2 v1
          (fun w => { w with status := "available" }) (fun _ => rfl) hne]
      rw [findVehicle] at hw2
      rw [hw2]
      rfl
  · intro st role id cur v1 rid now hrole hf hv1
    have hrole' : role ∈ assignRoles := by simpa using hrole
    rw [assign, if_neg (by simp [hrole']), hf]
    dsimp only
    rw [hv1]
    dsimp only
    split
    · rw [if_neg (by simp)]
      simp
    · rw [if_neg (by simp)]
      simp

/-- Store for the C3 witness: alert 1 holds vehicle 7; vehicle 9 is
available. -/
def c3store : Store :=
  { alerts := [mkAlert 1 2 "pending" (some 7)],
    vehicles := [{ id := 7, status := "assigned" },
                 { id := 9, status := "available" }] }

theorem C3_witness :
    vehicleStatus (assign c3store "dispatcher" 1 (some 9) none 4).2.1 7 =
      some "available" ∧
    vehicleStatus (assign c3store "dispatcher" 1 (some 9) none 4).2.1 9 =
      some "assigned" ∧
    (assign c3store "dispatcher" 1 (some 9) none 4).2.2 =
      [(7, "available"), (9, "assigned")] :=
  C3_assign_vehicle_coupling.1 c3store "dispatcher" 1
    (mkAlert 1 2 "pending" (some 7)) 7 9 none 4
    { id := 7, status := "assigned" } { id := 9, status := "available" }
    (by decide) (by decide) rfl (by decide) (by decide) (by decide)
    (by decide) (by decide)

/-- Re-writing the same status to the same vehicle is a no-op the second
time. -/
theorem setVehicleStatus_idem (vs : List Vehicle) (v : Nat) (s : String) :
    setVehicleStatus (setVehicleStatus vs v s) v s =
      setVehicleStatus vs v s := by
  simp only [setVehicleStatus]
  rw [updBy_updBy Vehicle.id v (fun w => { w with status := s })
      (fun w => { w with status := s }) (fun _ => rfl)]

/-- The pair of conditional vehicle writes of the status route is
idempotent on the vehicles table. -/
theorem statusEffects_idem (vs : List Vehicle) (s : String)
    (avid : Option Nat) :
    resolveEffect
        (respondEffect (resolveEffect (respondEffect vs s avid) s avid)
          s avid) s avid =
      resolveEffect (respondEffect vs s avid) s avid := by
  by_cases h1 : s = "responding"
  · subst h1
    cases avid with
    | none => simp [respondEffect, resolveEffect, natTruthy]
    | some v =>
      by_cases h0 : v = 0
      · subst h0
        simp [respondEffect, resolveEffect, natTruthy]
      · simp [respondEffect, resolveEffect, natTruthy, h0,
          setVehicleStatus_idem]
  · by_cases h2 : s = "resolved"
    · subst h2
      cases avid with
      | none => simp [respondEffect, resolveEffect, natTruthy]
      | some v =>
        by_cases h0 : v = 0
        · subst h0
          simp [respondEffect, resolveEffect, natTruthy]
        · simp [respondEffect, resolveEffect, natTruthy, h0,
            setVehicleStatus_idem]
    · simp [respondEffect, resolveEffect, h1, h2]

/-- C8: the status route is idempotent: a second PATCH with the same
target status, applied to the state produced by a first call, returns
exactly the response and final state that a single call would — the only
repeated side effect is re-issuing the identical vehicle-status write,
which lands on the same value.  (This holds for every store, role and
status string, error branches included, so in particular for a target
equal to the incident's current status.) -/
theorem C8_updateStatus_idempotent (st : Store) (role : String) (id : Nat)
    (s : String) (now now2 : Nat) :
    updateStatus (updateStatus st role id s now).2 role id s now2 =
      updateStatus st role id s now2 := by
  by_cases hs : (!(validStatuses.contains s)) = true
  · have h1 : updateStatus st role id s now = (.badRequest "Invalid status", st) := by
      rw [updateStatus, if_pos hs]
    rw [h1]
  · by_cases hr : (!(statusRoles.contains role)) = true
    · have h1 : updateStatus st role id s now =
          (.accessDenied "Access denied", st) := by
        rw [updateStatus, if_neg hs, if_pos hr]
      rw [h1]
    · cases hfind : findAlert st.alerts id with
      | none =>
        have h1 : updateStatus st role id s now =
            (.serverError singleNoRows, st) := by
          rw [updateStatus, if_neg hs, if_neg hr, hfind]
        rw [h1]
      | some a =>
        have hfind2 : findAlert (updBy Alert.id id
            (fun x => { x with status := s, updated_at := some now })
            st.alerts) id =
            some { a with status := s, updated_at := some now } :=
          findAlert_updBy st.alerts id
            (fun x => { x with status := s, updated_at := some now })
            (fun _ => rfl) a hfind
        have e1 : updateStatus st role id s now =
            (.ok { a with status := s, updated_at := some now },
             { alerts := updBy Alert.id id
                 (fun x => { x with status := s, updated_at := some now })
                 st.alerts,
               vehicles := resolveEffect
                 (respondEffect st.vehicles s a.assigned_vehicle_id) s
                 a.assigned_vehicle_id }) := by
          rw [updateStatus, if_neg hs, if_neg hr, hfind]
        have e2 : updateStatus st role id s now2 =
            (.ok { a with status := s, updated_at := some now2 },
             { alerts := updBy Alert.id id
                 (fun x => { x with status := s, updated_at := some now2 })
                 st.alerts,
               vehicles := resolveEffect
                 (respondEffect st.vehicles s a.assigned_vehicle_id) s
                 a.assigned_vehicle_id }) := by
          rw [updateStatus, if_neg hs, if_neg hr, hfind]
        rw [e1, e2]
        dsimp only
        rw [updateStatus, if_neg hs, if_neg hr]
        dsimp only
        rw [hfind2]
        dsimp only
        refine congrArg₂ Prod.mk rfl ?_
        refine congrArg₂ Store.mk ?_ ?_
        · rw [updBy_updBy Alert.id id
            (fun x => { x with status := s, updated_at := some now })
            (fun x => { x with status := s, updated_at := some now2 })
            (fun _ => rfl)]
        · exact statusEffects_idem st.vehicles s a.assigned_vehicle_id

theorem C8_witness :
    updateStatus (updateStatus c2store "admin" 1 "responding" 3).2
        "admin" 1 "responding" 3 =
      updateStatus c2store "admin" 1 "responding" 3 :=
  C8_updateStatus_idempotent c2store "admin" 1 "responding" 3 3

theorem C9_witness :
    getIO (α := Nat) none = Except.error "Socket.io not initialized" ∧
    getIO ( setIO (none : Option Nat) (some 5)) = Except.ok 5 :=
  ⟨(C9_socket_initialization Nat).1, (C9_socket_initialization Nat).2 none 5⟩

end Rescuelink
